import Mathlib

/-!
Shallow embedding of the content-idea analysis pipeline of this repository:
the two Supabase edge functions `submit-idea` and `analyze-content`
(files `supabase/functions/submit-idea/index.ts` and
`supabase/functions/analyze-content/index.ts`), together with the row shape
of the `content_ideas` table as declared in the frontend type definitions.

Modelling conventions:
- JS strings are Lean `String` (scanning is done on `String.data : List Char`);
- numeric score values are `Nat` (the regex captures a digit string and the
  code parses it in base 10; IEEE float precision of `parseInt` is ignored);
- nullable columns are `Option`;
- the outcome of each upstream `fetch` (network failure, HTTP status flag,
  parsed body shape) is an explicit input to the handler function;
- each database write the handler performs is recorded in a trace.
-/

namespace ContentMediaHub

/-- The `analysis_status` enumeration of a `content_ideas` row
(frontend type: `"pending" | "analyzing" | "completed" | "failed"`). -/
inductive AnalysisStatus
  | pending
  | analyzing
  | completed
  | failed
deriving DecidableEq, Repr

/-- The `project_status` enumeration of a `content_ideas` row (frontend type:
`"New" | "In Review" | "In Progress" | "Complete" | "On Hold"`). -/
inductive ProjectStatus
  | new
  | inReview
  | inProgress
  | complete
  | onHold
deriving DecidableEq, Repr

/-- The literal string stored in the database for each `project_status` value. -/
def ProjectStatus.dbString : ProjectStatus → String
  | .new => "New"
  | .inReview => "In Review"
  | .inProgress => "In Progress"
  | .complete => "Complete"
  | .onHold => "On Hold"

/-- One normalized web-search result, as built on line 53 of
`analyze-content/index.ts`: `{ title: r.title, url: r.url, snippet: r.description }`. -/
structure SearchResult where
  title : String
  url : String
  snippet : String
deriving DecidableEq, Repr

/-- A `content_ideas` row (identity and timestamps omitted; they are opaque
to the control flow being verified). -/
structure Row where
  title : String
  user_id : String
  analysis_status : AnalysisStatus
  project_status : ProjectStatus
  score : Option Nat
  analysis : Option String
deriving DecidableEq, Repr

/-- Parsed body of the Brave search response: either `json()` rejects, or the
body parses and its optional `web` field holds the `results` array. -/
inductive BraveBody
  | invalidJson
  | payload (web : Option (List SearchResult))
deriving DecidableEq, Repr

/-- Outcome of the Brave `fetch` on line 49: the network call rejects, or the
provider responds with a success flag (`Response.ok`) and a body. -/
inductive BraveOutcome
  | netError
  | response (ok : Bool) (body : BraveBody)
deriving DecidableEq, Repr

/-- Parsed body of the OpenAI completion response: `json()` rejects, the parsed
object lacks `choices[0].message`, or it has a `content` field (`none` models
JSON null / undefined). -/
inductive OpenAIBody
  | invalidJson
  | badShape
  | content (c : Option String)
deriving DecidableEq, Repr

/-- Outcome of the OpenAI `fetch` on line 97: the network call rejects, or the
provider responds with a success flag (`Response.ok`) and a body. -/
inductive OpenAIOutcome
  | netError
  | response (ok : Bool) (body : OpenAIBody)
deriving DecidableEq, Repr

/-! Score extraction (line 125 of `analyze-content/index.ts`):
`analysisHtml.match(/<strong style="font-size: 1.2em; color: #FF7A59;">(\d+)\/100<\/strong>/)`
followed by `parseInt(scoreMatch[1], 10)`.  The regex splits into the literal
run up to the unescaped dot, the dot itself, the literal run up to the capture
group, a nonempty digit run, and the literal tail. -/

/-- Literal regex characters before the unescaped dot of `1.2em`. -/
def markerPre : List Char := "<strong style=\"font-size: 1".data

/-- Literal regex characters between the unescaped dot and the capture group. -/
def markerMid : List Char := "2em; color: #FF7A59;\">".data

/-- Literal regex characters after the capture group: `/100</strong>`. -/
def markerSuf : List Char := "/100</strong>".data

/-- What the regex metacharacter `.` matches in JavaScript without the `s`
flag: any character except a line terminator. -/
def jsDotMatches (c : Char) : Bool :=
  c ≠ Char.ofNat 10 && c ≠ Char.ofNat 13 && c ≠ Char.ofNat 0x2028 && c ≠ Char.ofNat 0x2029

/-- Base-10 value of a digit string, as `parseInt(·, 10)` computes it on the
captured `\d+` group (always a nonempty ASCII digit string). -/
def digitsVal (ds : List Char) : Nat :=
  ds.foldl (fun acc c => 10 * acc + (c.toNat - 48)) 0

/-- Attempt to match the score regex at the start of `l`; on success return the
parsed captured integer.  The greedy `\d+` needs no backtracking here: the tail
literal starts with `/`, which is not a digit, so the maximal digit run is the
only candidate capture. -/
def matchMarkerAt (l : List Char) : Option Nat :=
  if l.take markerPre.length = markerPre then
    match l.drop markerPre.length with
    | [] => none
    | c :: r2 =>
      if jsDotMatches c then
        if r2.take markerMid.length = markerMid then
          let r3 := r2.drop markerMid.length
          let ds := r3.takeWhile Char.isDigit
          if ds.isEmpty then none
          else if (r3.dropWhile Char.isDigit).take markerSuf.length = markerSuf then
            some (digitsVal ds)
          else none
        else none
      else none
  else none

/-- Leftmost-match search of the regex over the whole input, as
`String.prototype.match` performs it. -/
def findMarker : List Char → Option Nat
  | [] => none
  | c :: rest =>
    match matchMarkerAt (c :: rest) with
    | some n => some n
    | none => findMarker rest

/-- `scoreMatch ? parseInt(scoreMatch[1], 10) : null` of lines 125-126. -/
def extractScore (s : String) : Option Nat :=
  findMarker s.data

/-! Code-fence normalization (line 120):
`analysisHtml.replace` removing a leading fence then a trailing fence. -/

/-- The anchored leading fence `^` + backtick-backtick-backtick + `html\n`. -/
def openFence : List Char := "```html\n".data

/-- The anchored trailing fence `\n` + three backticks + `$`. -/
def closeFence : List Char := "\n```".data

/-- The second `replace` of line 120: strip one trailing `closeFence` if the
string ends with it (`$` is anchored at the very end of the input). -/
def stripTrail (l1 : List Char) : List Char :=
  if l1.reverse.take closeFence.length = closeFence.reverse then
    (l1.reverse.drop closeFence.length).reverse
  else l1

/-- Apply the two `replace` calls of line 120 in order: strip one leading
`openFence` if the string starts with it, then strip one trailing `closeFence`
if the resulting string ends with it. -/
def stripFencesL (l : List Char) : List Char :=
  stripTrail (if l.take openFence.length = openFence then l.drop openFence.length else l)

/-- String-level wrapper for the fence normalization. -/
def stripFences (s : String) : String :=
  ⟨stripFencesL s.data⟩

/-- The placeholder document substituted on line 118 when
`chatCompletion.choices[0].message.content` is null, undefined or empty
(JS `||` treats all three as falsy). -/
def fallbackHtml : String :=
  "<html><body>Error generating report.</body></html>"

/-- One database write performed by the analyze-content handler on the target
row: the `update({ analysis_status })` form (lines 39 and 144) or the
`update` form with analysis_status "completed", score and analysis (lines 128-135). -/
inductive DbWrite
  | setStatus (s : AnalysisStatus)
  | setCompleted (score : Option Nat) (analysis : String)
deriving DecidableEq, Repr

/-- Effect of one write on a row: each `update` assigns exactly the listed
columns and leaves the rest unchanged. -/
def applyWrite (r : Row) : DbWrite → Row
  | .setStatus s => { r with analysis_status := s }
  | .setCompleted sc an =>
      { r with analysis_status := .completed, score := sc, analysis := some an }

/-- Observable outcome of one analyze-content invocation: the final state of
the target row (`none` when no such row exists), the chronological trace of
writes applied to it, whether the completion endpoint was called, and the HTTP
status of the handler response. -/
structure RunOutcome where
  finalDb : Option Row
  writes : List DbWrite
  openaiCalled : Bool
  httpStatus : Nat
deriving DecidableEq, Repr

/-- The catch block of lines 141-149 for a run in which the target row exists
(and so `idea_id` and `supabaseAdmin` are both set): write
`analysis_status` = "failed" and respond 500. -/
def failedRun (row1 : Row) (called : Bool) : RunOutcome :=
  { finalDb := some { row1 with analysis_status := .failed }
    writes := [DbWrite.setStatus .analyzing, DbWrite.setStatus .failed]
    openaiCalled := called
    httpStatus := 500 }

/-- The analyze-content handler (lines 22-151) for a request carrying an
`idea_id`, parameterized by the current row stored under that id and by the
outcomes of the two upstream fetches.  Mirrors the source order: unconditional
`update` to analysis_status "analyzing", Brave fetch + `json()` (the `ok`
flag of the Brave response is never consulted), `web?.results.slice(0,5)` with
`|| []` fallback, OpenAI fetch with an explicit `ok` check, `content ||`
placeholder, fence stripping, score extraction, final completed write. -/
def analyzeContent (db : Option Row) (brave : BraveOutcome) (openai : OpenAIOutcome) :
    RunOutcome :=
  match db with
  | none =>
      { finalDb := none, writes := [], openaiCalled := false, httpStatus := 500 }
  | some row =>
    let row1 : Row := { row with analysis_status := .analyzing }
    match brave with
    | .netError => failedRun row1 false
    | .response _braveOk braveBody =>
      match braveBody with
      | .invalidJson => failedRun row1 false
      | .payload web =>
        let _searchContext : List SearchResult := (web.map (fun rs => rs.take 5)).getD []
        match openai with
        | .netError => failedRun row1 true
        | .response ok body =>
          if ok then
            match body with
            | .invalidJson => failedRun row1 true
            | .badShape => failedRun row1 true
            | .content c =>
              let analysisHtml0 : String :=
                match c with
                | none => fallbackHtml
                | some s => if s = "" then fallbackHtml else s
              let analysisHtml := stripFences analysisHtml0
              let score := extractScore analysisHtml
              { finalDb := some { row1 with
                  analysis_status := .completed, score := score, analysis := some analysisHtml }
                writes := [DbWrite.setStatus .analyzing, DbWrite.setCompleted score analysisHtml]
                openaiCalled := true
                httpStatus := 200 }
          else failedRun row1 true

/-- Outcome of `supabaseClient.auth.getUser()` in `submit-idea/index.ts`. -/
inductive AuthOutcome
  | authError
  | noUser
  | user (uid : String)
deriving DecidableEq, Repr

/-- Observable outcome of one submit-idea invocation: HTTP status, the row
persisted by the insert (if any), and the row returned in the response body. -/
structure SubmitResult where
  httpStatus : Nat
  inserted : Option Row
  returned : Option Row
deriving DecidableEq, Repr

/-- The row built by the insert of lines 44-53 of `submit-idea/index.ts`:
title, user_id = user.id, analysis_status = "analyzing", project_status = "New",
with `score` and `analysis` left at their null defaults. -/
def newRow (title uid : String) : Row :=
  { title := title
    user_id := uid
    analysis_status := .analyzing
    project_status := .new
    score := none
    analysis := none }

/-- The rejection response of the catch block (lines 77-83): HTTP 400, nothing
persisted, nothing returned. -/
def rejected : SubmitResult :=
  { httpStatus := 400, inserted := none, returned := none }

/-- The submit-idea handler (lines 19-84).  `title = none` models a request
body without the field; JS `!title` also rejects the empty string.  The
`dispatchError` flag models whether the fire-and-forget
`functions.invoke` of analyze-content dispatch errors; the handler only
logs that outcome, so the flag does not influence the result. -/
def submitIdea (title : Option String) (auth : AuthOutcome) (insertOk : Bool)
    (dispatchError : Bool) : SubmitResult :=
  match title with
  | none => rejected
  | some t =>
    if t = "" then rejected
    else
      match auth with
      | .authError => rejected
      | .noUser => rejected
      | .user uid =>
        if insertOk then
          let row := newRow t uid
          { httpStatus := 201, inserted := some row, returned := some row }
        else rejected

/-! Spec-side definitions, used only to state corrections.  These follow the
wording of the spec, not the source, and are compared against the source-derived
functions above. -/

/-- The exact marker opening the spec describes: a strong element whose inline
style signature is literally `font-size: 1.2em; color: #FF7A59;`. -/
def specExactPre : List Char :=
  "<strong style=\"font-size: 1.2em; color: #FF7A59;\">".data

/-- Spec-side check that the exact marker occurs at the start of `l`: the exact
opening, then a nonempty digit run, then the literal `/100</strong>`. -/
def specExactMarkerAt (l : List Char) : Bool :=
  l.take specExactPre.length = specExactPre &&
    (let r := l.drop specExactPre.length
     !(r.takeWhile Char.isDigit).isEmpty &&
       (r.dropWhile Char.isDigit).take markerSuf.length = markerSuf)

/-- Spec-side check that the exact marker occurs somewhere in the list. -/
def specHasExactMarkerL : List Char → Bool
  | [] => false
  | c :: rest => specExactMarkerAt (c :: rest) || specHasExactMarkerL rest

/-- Spec-side check that the exact marker pattern occurs somewhere in `s`. -/
def specHasExactMarker (s : String) : Bool :=
  specHasExactMarkerL s.data

/-- Spec-side reading of "carries the markdown wrapper": the string begins with
the opening fence line and ends with the closing fence. -/
def specHasWrapper (s : String) : Bool :=
  s.data.take openFence.length = openFence &&
    s.data.reverse.take closeFence.length = closeFence.reverse

/-- The wrapped form the spec describes: opening fence line, body, closing fence. -/
def wrapHtml (b : String) : String :=
  "```html\n" ++ b ++ "\n```"

/-! Helper lemmas. -/

/-- The score regex cannot match at the end of the input. -/
theorem matchMarkerAt_nil : matchMarkerAt [] = none := by decide

/-- Leftmost-match search fails exactly when the regex matches at no position. -/
theorem findMarker_eq_none_iff (l : List Char) :
    findMarker l = none ↔ ∀ i, matchMarkerAt (l.drop i) = none := by
  induction l with
  | nil =>
    constructor
    · intro _ i
      rw [List.drop_nil]
      exact matchMarkerAt_nil
    · intro _
      rfl
  | cons c rest ih =>
    constructor
    · intro h i
      unfold findMarker at h
      cases hm : matchMarkerAt (c :: rest) with
      | some n =>
        rw [hm] at h
        exact absurd h (by simp)
      | none =>
        rw [hm] at h
        cases i with
        | zero => exact hm
        | succ j => exact (ih.mp h) j
    · intro h
      unfold findMarker
      have h0 : matchMarkerAt (c :: rest) = none := h 0
      rw [h0]
      exact ih.mpr (fun j => h (j + 1))

/-- C5: the claim as stated fails on the code.  The regex of line 125 has an
unescaped dot in `1.2em`, so the input below, whose style signature is
`font-size: 1x2em` and which therefore does not contain the exact marker the
spec describes, still yields a score (50) instead of null. -/
theorem marker_wildcard_cex :
    extractScore "<strong style=\"font-size: 1x2em; color: #FF7A59;\">50/100</strong>" =
      some 50 ∧
    specHasExactMarker "<strong style=\"font-size: 1x2em; color: #FF7A59;\">50/100</strong>" =
      false := by
  decide

/-- C5 (amended): score extraction returns null exactly when no position of the
input matches the marker regex (whose style-signature dot matches any single
non-line-terminator character), and it returns 73 for input consisting of the
exact marker `<strong style="font-size: 1.2em; color: #FF7A59;">73/100</strong>`. -/
theorem extractScore_first_match_spec :
    (∀ s : String, extractScore s = none ↔ ∀ i, matchMarkerAt (s.data.drop i) = none) ∧
    extractScore "<strong style=\"font-size: 1.2em; color: #FF7A59;\">73/100</strong>" =
      some 73 := by
  constructor
  · intro s
    exact findMarker_eq_none_iff s.data
  · decide

/-- Witness for the amended C5 theorem at a concrete input: an input with no
marker matches the regex at no position. -/
theorem extractScore_first_match_spec_witness :
    matchMarkerAt (("abc 73/100 def" : String).data.drop 1) = none :=
  (extractScore_first_match_spec.1 "abc 73/100 def").mp (by decide) 1

/-- C9: the claim as stated fails on the code.  The two `replace` calls of
line 120 strip the two fences independently, so a string carrying only the
leading fence — hence not carrying the full wrapper — is still changed. -/
theorem strip_lead_only_cex :
    specHasWrapper "```html\nfoo" = false ∧
    stripFences "```html\nfoo" = "foo" ∧
    stripFences "```html\nfoo" ≠ "```html\nfoo" := by
  decide

/-- C9 (amended): normalization strips a leading `(three backticks)html + newline`
and a trailing `newline + three backticks` independently.  A string with
neither fence is returned unchanged, and for every body `b` the wrapped string
normalizes back to exactly `b`; no other transformation occurs. -/
theorem stripFences_identity_or_unwrap (t b : String) :
    (t.data.take openFence.length ≠ openFence ∧
        t.data.reverse.take closeFence.length ≠ closeFence.reverse →
      stripFences t = t) ∧
    stripFences (wrapHtml b) = b := by
  constructor
  · rintro ⟨h1, h2⟩
    show (⟨stripFencesL t.data⟩ : String) = t
    unfold stripFencesL stripTrail
    rw [if_neg h1, if_neg h2]
  · have hdata : (wrapHtml b).data = openFence ++ (b.data ++ closeFence) := rfl
    have h1 : (wrapHtml b).data.take openFence.length = openFence := by
      rw [hdata]
      exact List.take_left' rfl
    have h2 : (wrapHtml b).data.drop openFence.length = b.data ++ closeFence := by
      rw [hdata]
      exact List.drop_left' rfl
    have hrev : (b.data ++ closeFence).reverse = closeFence.reverse ++ b.data.reverse :=
      List.reverse_append _ _
    have hlen : (closeFence.reverse).length = closeFence.length := List.length_reverse _
    have h3 : (b.data ++ closeFence).reverse.take closeFence.length = closeFence.reverse := by
      rw [hrev]
      exact List.take_left' hlen
    have h4 : (b.data ++ closeFence).reverse.drop closeFence.length = b.data.reverse := by
      rw [hrev]
      exact List.drop_left' hlen
    show (⟨stripFencesL (wrapHtml b).data⟩ : String) = b
    unfold stripFencesL stripTrail
    rw [if_pos h1, h2, if_pos h3, h4, List.reverse_reverse]

/-- Witness for the amended C9 theorem at concrete inputs. -/
theorem stripFences_identity_or_unwrap_witness :
    stripFences "<p>plain</p>" = "<p>plain</p>" ∧ stripFences (wrapHtml "<p>x</p>") = "<p>x</p>" :=
  ⟨(stripFences_identity_or_unwrap "<p>plain</p>" "<p>x</p>").1 (by decide),
   (stripFences_identity_or_unwrap "<p>plain</p>" "<p>x</p>").2⟩

/-- A fresh row as the intake creates it, used as a concrete starting state. -/
def freshRow : Row :=
  { title := "Blockchain for B2B marketing"
    user_id := "u1"
    analysis_status := .analyzing
    project_status := .new
    score := none
    analysis := none }

/-- A row already in the terminal state `completed`. -/
def doneRow : Row :=
  { title := "t"
    user_id := "u"
    analysis_status := .completed
    score := some 80
    analysis := some "<html><body>done</body></html>"
    project_status := .new }

/-- C1: the claim as stated fails on the code.  Line 49 never consults
`braveResponse.ok`; when the search provider answers with a non-success status
and a parseable JSON body, the handler proceeds with an empty search context,
issues the completion call, and the row ends `completed` — a degraded analysis
without search context. -/
theorem search_nonsuccess_not_fatal_cex :
    (analyzeContent (some freshRow) (.response false (.payload none))
        (.response true (.content (some "<p>report</p>")))).openaiCalled = true ∧
    (analyzeContent (some freshRow) (.response false (.payload none))
        (.response true (.content (some "<p>report</p>")))).finalDb =
      some { freshRow with
             analysis_status := .completed
             score := none
             analysis := some "<p>report</p>" } ∧
    (analyzeContent (some freshRow) (.response false (.payload none))
        (.response true (.content (some "<p>report</p>")))).httpStatus = 200 := by
  decide

/-- C1 (amended): only a search network failure (the `fetch` rejecting) is
fatal: then no completion call is issued, the row ends `failed`, and the
handler responds 500.  A non-success search response status by itself is not
detected (see the counterexample). -/
theorem search_netError_fatal (row : Row) (oa : OpenAIOutcome) :
    (analyzeContent (some row) .netError oa).openaiCalled = false ∧
    (analyzeContent (some row) .netError oa).finalDb =
      some { row with analysis_status := .failed } ∧
    (analyzeContent (some row) .netError oa).httpStatus = 500 :=
  ⟨rfl, rfl, rfl⟩

/-- C2: the claim as stated fails on the code.  The regex captures an arbitrary
digit run before `/100` and line 126 parses it without any bound check, so a
completion containing `999/100` persists score 999, outside [0, 100]. -/
theorem score_exceeds_bound_cex :
    (analyzeContent (some freshRow) (.response true (.payload (some [])))
        (.response true (.content
          (some "<p><strong style=\"font-size: 1.2em; color: #FF7A59;\">999/100</strong></p>")))).finalDb =
      some { freshRow with
             analysis_status := .completed
             score := some 999
             analysis :=
               some "<p><strong style=\"font-size: 1.2em; color: #FF7A59;\">999/100</strong></p>" } ∧
    ¬ (999 ≤ 100) := by
  decide

/-- C2 (amended): whenever the persisted score is non-null it is a nonnegative
integer (the digit run before `/100`, with no upper bound enforced), and the
score column is written only on the successful-completion path: on the failure
path both `score` and `analysis` keep their previous values. -/
theorem score_only_on_completion (row : Row) (brave : BraveOutcome) (oa : OpenAIOutcome)
    (r : Row) (h : (analyzeContent (some row) brave oa).finalDb = some r) :
    (r.analysis_status = .failed → r.score = row.score ∧ r.analysis = row.analysis) ∧
    (r.analysis_status = .completed →
      ∃ an, r.analysis = some an ∧ r.score = extractScore an) := by
  have hfail : ∀ called : Bool,
      (failedRun { row with analysis_status := .analyzing } called).finalDb = some r →
      (r.analysis_status = .failed → r.score = row.score ∧ r.analysis = row.analysis) ∧
      (r.analysis_status = .completed →
        ∃ an, r.analysis = some an ∧ r.score = extractScore an) := by
    intro called hc
    have hr := (Option.some.inj hc).symm
    subst hr
    exact ⟨fun _ => ⟨rfl, rfl⟩, fun hco => absurd hco (by simp)⟩
  cases brave with
  | netError => exact hfail false h
  | response braveOk braveBody =>
    cases braveBody with
    | invalidJson => exact hfail false h
    | payload web =>
      cases oa with
      | netError => exact hfail true h
      | response ok body =>
        cases ok with
        | false => exact hfail true h
        | true =>
          cases body with
          | invalidJson => exact hfail true h
          | badShape => exact hfail true h
          | content c =>
            have hr := (Option.some.inj h).symm
            subst hr
            exact ⟨fun hf => absurd hf (by simp), fun _ => ⟨_, rfl, rfl⟩⟩

/-- Witness for the amended C2 theorem: a concrete failed run leaves score and
analysis at their previous values. -/
theorem score_only_on_completion_witness :
    (({ freshRow with analysis_status := .failed } : Row).analysis_status = .failed →
      ({ freshRow with analysis_status := .failed } : Row).score = freshRow.score ∧
      ({ freshRow with analysis_status := .failed } : Row).analysis = freshRow.analysis) ∧
    (({ freshRow with analysis_status := .failed } : Row).analysis_status = .completed →
      ∃ an, ({ freshRow with analysis_status := .failed } : Row).analysis = some an ∧
        ({ freshRow with analysis_status := .failed } : Row).score = extractScore an) :=
  score_only_on_completion freshRow .netError .netError
    { freshRow with analysis_status := .failed } (by decide)

/-- C4: the claim as stated fails on the code.  The update of lines 37-42 sets
`analysis_status` = "analyzing" unconditionally, so re-triggering the handler
for a row already in the terminal state `completed` writes it back to
`analyzing` (first write of the trace) and, here, on to `failed`: terminal
states are not absorbing across invocations. -/
theorem terminal_reentered_cex :
    doneRow.analysis_status = .completed ∧
    (analyzeContent (some doneRow) .netError .netError).writes.head? =
      some (DbWrite.setStatus .analyzing) ∧
    (analyzeContent (some doneRow) .netError .netError).finalDb =
      some { doneRow with analysis_status := .failed } := by
  decide

/-- C4 (amended): within a single invocation the status does move only forward —
the trace is exactly one write to `analyzing` followed by one terminal write
(`failed`, or the completed-update) — but terminal states are not absorbing
across invocations: a repeat trigger for the same identifier first rewrites the
row to `analyzing` unconditionally (see the counterexample). -/
theorem run_writes_forward (row : Row) (brave : BraveOutcome) (oa : OpenAIOutcome) :
    ∃ w, (analyzeContent (some row) brave oa).writes = [DbWrite.setStatus .analyzing, w] ∧
      (w = DbWrite.setStatus .failed ∨ ∃ sc an, w = DbWrite.setCompleted sc an) := by
  cases brave with
  | netError => exact ⟨DbWrite.setStatus .failed, rfl, Or.inl rfl⟩
  | response braveOk braveBody =>
    cases braveBody with
    | invalidJson => exact ⟨DbWrite.setStatus .failed, rfl, Or.inl rfl⟩
    | payload web =>
      cases oa with
      | netError => exact ⟨DbWrite.setStatus .failed, rfl, Or.inl rfl⟩
      | response ok body =>
        cases ok with
        | false => exact ⟨DbWrite.setStatus .failed, rfl, Or.inl rfl⟩
        | true =>
          cases body with
          | invalidJson => exact ⟨DbWrite.setStatus .failed, rfl, Or.inl rfl⟩
          | badShape => exact ⟨DbWrite.setStatus .failed, rfl, Or.inl rfl⟩
          | content c => exact ⟨DbWrite.setCompleted _ _, rfl, Or.inr ⟨_, _, rfl⟩⟩

/-- C6: when the completion provider returns a non-success status, the row ends
`failed` and the failure write touches only `analysis_status`: the final row
equals the initial row with just that field changed (score and analysis keep
their previous values), and the handler responds 500. -/
theorem completion_nonsuccess_only_status (row : Row) (brave : BraveOutcome)
    (body : OpenAIBody) :
    (analyzeContent (some row) brave (.response false body)).finalDb =
      some { row with analysis_status := .failed } ∧
    (analyzeContent (some row) brave (.response false body)).httpStatus = 500 := by
  cases brave with
  | netError => exact ⟨rfl, rfl⟩
  | response braveOk braveBody =>
    cases braveBody with
    | invalidJson => exact ⟨rfl, rfl⟩
    | payload web => exact ⟨rfl, rfl⟩

/-- C10: when the completion provider returns success but the message of the returned choice
content is null or empty, the handler still records `completed` with a null
score, and the persisted artifact is the fixed placeholder document — not a
null artifact and not a failed status. -/
theorem empty_completion_placeholder (row : Row) (ok : Bool)
    (web : Option (List SearchResult)) :
    (analyzeContent (some row) (.response ok (.payload web))
        (.response true (.content none))).finalDb =
      some { row with
             analysis_status := .completed
             score := none
             analysis := some fallbackHtml } ∧
    (analyzeContent (some row) (.response ok (.payload web))
        (.response true (.content (some "")))).finalDb =
      some { row with
             analysis_status := .completed
             score := none
             analysis := some fallbackHtml } ∧
    fallbackHtml = "<html><body>Error generating report.</body></html>" := by
  have hs : stripFences fallbackHtml = fallbackHtml := by decide
  have he : extractScore fallbackHtml = none := by decide
  refine ⟨?_, ?_, rfl⟩
  · simp [analyzeContent, hs, he]
  · simp [analyzeContent, hs, he]

/-- C3: every row the intake inserts and every final row an orchestrator run
leaves behind satisfies the invariant: if `analysis_status = completed` then
the `analysis` artifact is non-null (while the score may independently be null
when extraction found no marker, the status is still recorded `completed`). -/
theorem completed_has_analysis :
    (∀ (t : Option String) (a : AuthOutcome) (i d : Bool) (r : Row),
      (submitIdea t a i d).inserted = some r →
        r.analysis_status = .completed → r.analysis ≠ none) ∧
    (∀ (db : Option Row) (brave : BraveOutcome) (oa : OpenAIOutcome) (r : Row),
      (analyzeContent db brave oa).finalDb = some r →
        r.analysis_status = .completed → r.analysis ≠ none) := by
  constructor
  · intro t a i d r h
    match t with
    | none => exact absurd h (by simp [submitIdea, rejected])
    | some s =>
      by_cases hs : s = ""
      · rw [hs] at h
        exact absurd h (by simp [submitIdea, rejected])
      · cases a with
        | authError => exact absurd h (by simp [submitIdea, hs, rejected])
        | noUser => exact absurd h (by simp [submitIdea, hs, rejected])
        | user uid =>
          cases i with
          | false => exact absurd h (by simp [submitIdea, hs, rejected])
          | true =>
            have hr : r = newRow s uid := by
              have := h
              simp [submitIdea, hs] at this
              exact this.symm
            subst hr
            intro hco
            exact absurd hco (by simp [newRow])
  · intro db brave oa r h
    match db with
    | none => exact absurd h (by simp [analyzeContent])
    | some row =>
      cases brave with
      | netError =>
        have hr := (Option.some.inj h).symm
        subst hr
        intro hco
        exact absurd hco (by simp)
      | response braveOk braveBody =>
        cases braveBody with
        | invalidJson =>
          have hr := (Option.some.inj h).symm
          subst hr
          intro hco
          exact absurd hco (by simp)
        | payload web =>
          cases oa with
          | netError =>
            have hr := (Option.some.inj h).symm
            subst hr
            intro hco
            exact absurd hco (by simp)
          | response ok body =>
            cases ok with
            | false =>
              have hr := (Option.some.inj h).symm
              subst hr
              intro hco
              exact absurd hco (by simp)
            | true =>
              cases body with
              | invalidJson =>
                have hr := (Option.some.inj h).symm
                subst hr
                intro hco
                exact absurd hco (by simp)
              | badShape =>
                have hr := (Option.some.inj h).symm
                subst hr
                intro hco
                exact absurd hco (by simp)
              | content c =>
                have hr := (Option.some.inj h).symm
                subst hr
                intro _
                simp

/-- Witness for the C3 theorem: a concrete run that ends `completed` has a
non-null artifact. -/
theorem completed_has_analysis_witness :
    ({ freshRow with
       analysis_status := .completed
       score := none
       analysis := some fallbackHtml } : Row).analysis ≠ none :=
  completed_has_analysis.2 (some freshRow) (.response true (.payload none))
    (.response true (.content none))
    { freshRow with
      analysis_status := .completed
      score := none
      analysis := some fallbackHtml }
    (by simp [analyzeContent]; decide) rfl

/-- C7: a submission whose title is missing or empty is rejected with HTTP 400
before anything is persisted: no row is inserted, regardless of the
authentication outcome, of whether the insert would have succeeded, and of the
dispatch outcome. -/
theorem empty_title_rejected (auth : AuthOutcome) (insertOk dispatchError : Bool) :
    submitIdea none auth insertOk dispatchError = rejected ∧
    submitIdea (some "") auth insertOk dispatchError = rejected ∧
    rejected.httpStatus = 400 ∧ rejected.inserted = none :=
  ⟨rfl, rfl, rfl, rfl⟩

/-- C8: a successful authenticated submission persists exactly the new row with
`analysis_status` equal to `analyzing` and `project_status` equal to `new`
(stored as the literal string "New"), returns that row with HTTP 201, and the
response does not depend on the outcome of the fire-and-forget dispatch of the
analysis. -/
theorem submit_success_shape (t uid : String) (d1 d2 : Bool) (h : t ≠ "") :
    (submitIdea (some t) (.user uid) true d1).httpStatus = 201 ∧
    (submitIdea (some t) (.user uid) true d1).inserted = some (newRow t uid) ∧
    (submitIdea (some t) (.user uid) true d1).returned = some (newRow t uid) ∧
    (newRow t uid).analysis_status = .analyzing ∧
    (newRow t uid).project_status = .new ∧
    (newRow t uid).project_status.dbString = "New" ∧
    submitIdea (some t) (.user uid) true d1 = submitIdea (some t) (.user uid) true d2 := by
  refine ⟨?_, ?_, ?_, rfl, rfl, rfl, ?_⟩ <;> simp [submitIdea, h]

/-- Witness for the C8 theorem at a concrete title and user. -/
theorem submit_success_shape_witness :
    (submitIdea (some "Blockchain for B2B marketing") (.user "u1") true false).httpStatus = 201 ∧
    (submitIdea (some "Blockchain for B2B marketing") (.user "u1") true false).inserted =
      some (newRow "Blockchain for B2B marketing" "u1") ∧
    (submitIdea (some "Blockchain for B2B marketing") (.user "u1") true false).returned =
      some (newRow "Blockchain for B2B marketing" "u1") ∧
    (newRow "Blockchain for B2B marketing" "u1").analysis_status = .analyzing ∧
    (newRow "Blockchain for B2B marketing" "u1").project_status = .new ∧
    (newRow "Blockchain for B2B marketing" "u1").project_status.dbString = "New" ∧
    submitIdea (some "Blockchain for B2B marketing") (.user "u1") true false =
      submitIdea (some "Blockchain for B2B marketing") (.user "u1") true true :=
  submit_success_shape "Blockchain for B2B marketing" "u1" false true (by decide)

end ContentMediaHub
